import Mathlib

/-!
Verification of the content-addressable media cache and ingestion pipeline
of social-tui (src/media_cache.py, src/manage_data.py), as a shallow
embedding.  Bytes are lists of naturals, the filesystem is an association
list from path strings to byte contents, the MD5 digest function is a
parameter `md5fn` (hashlib.md5 hexdigest), and the network is a parameter
`fetch` returning either the downloaded bytes together with the optional
Content-Type header or an error (urllib failure).  Blocking thread-pool
batches are modelled as sequential folds (join-all counts preserved;
`as_completed` ordering is not modelled).
-/

/-- Raw media bytes. -/
abbrev Bytes := List Nat

/-- The filesystem: an association list from absolute path strings to file
contents.  Paths are unique by construction of `fsWrite`. -/
abbrev FS := List (String × Bytes)

/-- Read a file: `open(path, 'rb').read()` when the file exists. -/
def fsRead (fs : FS) (p : String) : Option Bytes :=
  (fs.find? (fun e => e.1 == p)).map (fun e => e.2)

/-- `Path.exists()`. -/
def fsExists (fs : FS) (p : String) : Bool :=
  (fsRead fs p).isSome

/-- `open(path, 'wb').write(data)`: replaces any previous content. -/
def fsWrite (fs : FS) (p : String) (b : Bytes) : FS :=
  (p, b) :: fs.filter (fun e => !(e.1 == p))

/-- `Path.unlink()`. -/
def fsDelete (fs : FS) (p : String) : FS :=
  fs.filter (fun e => !(e.1 == p))

/-- The result of fetching one URL: downloaded bytes and the optional
Content-Type (mime) header, or a network error message. -/
abbrev FetchResult := Except String (Bytes × Option String)

/-- MIME_TO_MEDIA_TYPE from media_cache.py, in insertion order. -/
def MIME_TO_MEDIA_TYPE : List (String × String) :=
  [("image/jpeg", "image"), ("image/jpg", "image"), ("image/png", "image"),
   ("image/gif", "image"), ("image/webp", "image"),
   ("video/mp4", "video"), ("video/webm", "video"), ("video/quicktime", "video"),
   ("application/pdf", "document")]

/-- EXT_TO_MEDIA_TYPE from media_cache.py, in insertion order (the order
matters: `get_extension_from_url` scans the keys in this order). -/
def EXT_TO_MEDIA_TYPE : List (String × String) :=
  [(".jpg", "image"), (".jpeg", "image"), (".png", "image"), (".gif", "image"),
   (".webp", "image"), (".mp4", "video"), (".webm", "video"), (".mov", "video"),
   (".pdf", "document")]

/-- Characters allowed in a URL scheme (CPython `scheme_chars`). -/
def is_scheme_char (c : Char) : Bool :=
  c.isAlphanum || c == '+' || c == '-' || c == '.'

/-- Split a character list at its first colon (`url.find(':')`). -/
def find_colon_split : List Char → Option (List Char × List Char)
  | [] => none
  | c :: rest =>
    if c == ':' then some ([], rest)
    else
      match find_colon_split rest with
      | some (a, b) => some (c :: a, b)
      | none => none

/-- Drop a leading `scheme:` from a URL when the part before the first
colon is a nonempty well-formed scheme, as CPython `urlsplit` does. -/
def split_scheme (url : List Char) : List Char :=
  match find_colon_split url with
  | some (head, rest) =>
    if !head.isEmpty && head.all is_scheme_char && (head.headD 'a').isAlpha then
      rest
    else url
  | none => url

/-- Drop a leading `//netloc` (the authority ends at the first `/`, `?`
or `#`), as CPython `urlsplit` does. -/
def strip_netloc : List Char → List Char
  | '/' :: '/' :: rest =>
    rest.dropWhile (fun c => !(c == '/' || c == '?' || c == '#'))
  | l => l

/-- `urlparse(url).path`: strip the scheme and netloc, then cut the path
at the first `?` (query) or `#` (fragment). -/
def urlparse_path (url : String) : List Char :=
  (strip_netloc (split_scheme url.data)).takeWhile (fun c => !(c == '?' || c == '#'))

/-- Python substring containment `needle in hay` on character lists. -/
def contains_tok (needle : List Char) : List Char → Bool
  | [] => needle.isEmpty
  | c :: rest => needle.isPrefixOf (c :: rest) || contains_tok needle rest

/-- get_extension_from_url: lowercase the URL path and return the first
key of EXT_TO_MEDIA_TYPE occurring in it as a substring (`ext in path`,
not a suffix check), else ".bin". -/
def get_extension_from_url (url : String) : String :=
  let path := (urlparse_path url).map Char.toLower
  match EXT_TO_MEDIA_TYPE.find? (fun kv => contains_tok kv.1.data path) with
  | some kv => kv.1
  | none => ".bin"

/-- detect_media_type: MIME table first (a falsy/empty mime is skipped),
then the extension table on the URL-derived extension, else "image". -/
def detect_media_type (url : String) (mime_type : Option String) : String :=
  let mimeHit : Option String :=
    match mime_type with
    | some m => if m == "" then none else
        (MIME_TO_MEDIA_TYPE.find? (fun kv => kv.1 == m)).map (fun kv => kv.2)
    | none => none
  match mimeHit with
  | some t => t
  | none =>
    let ext := get_extension_from_url url
    match EXT_TO_MEDIA_TYPE.find? (fun kv => kv.1 == ext) with
    | some kv => kv.2
    | none => "image"

/-- CACHE_DIRS from media_cache.py: media type to directory path. -/
def CACHE_DIRS : List (String × String) :=
  [("image", "cache/media/images"), ("video", "cache/media/videos"),
   ("document", "cache/media/documents")]

/-- `CACHE_DIRS.get(media_type, CACHE_DIRS['image'])`. -/
def cacheDirFor (media_type : String) : String :=
  match CACHE_DIRS.find? (fun kv => kv.1 == media_type) with
  | some kv => kv.2
  | none => "cache/media/images"

/-- get_media_cache_path: `cache_dir / f"{md5_sum}{extension}"`. -/
def get_media_cache_path (media_type : String) (md5_sum : String)
    (extension : String) : String :=
  cacheDirFor media_type ++ "/" ++ md5_sum ++ extension

/-- verify_cached_media: the file exists and its digest, recomputed from
the bytes on disk, equals the expected one. -/
def verify_cached_media (md5fn : Bytes → String) (fs : FS) (local_path : String)
    (expected_md5 : String) : Bool :=
  match fsRead fs local_path with
  | none => false
  | some b => md5fn b == expected_md5

/-- Python truthiness of an optional string (None and "" are falsy). -/
def truthy : Option String → Bool
  | none => false
  | some s => !(s == "")

/-- The metadata dictionary returned by download_and_cache_media.  The
best-effort PIL width/height probe is outside the embedding (its absence
is not an error and no claim mentions dimensions). -/
structure CacheResult where
  md5_sum : String
  local_path : String
  file_size : Nat
  mime_type : Option String
  media_type : String
  extension : String
  url : String
deriving Repr, DecidableEq

/-- The `media_type` local of download_and_cache_media: the caller's
override when truthy, else Type-Detector output. -/
def put_media_type (media_url : String) (media_type : Option String)
    (mime_type : Option String) : String :=
  if truthy media_type then media_type.getD ""
  else detect_media_type media_url mime_type

/-- The `cache_path` local of download_and_cache_media. -/
def put_cache_path (md5fn : Bytes → String) (media_url : String)
    (media_type : Option String) (data : Bytes) (mime_type : Option String) :
    String :=
  get_media_cache_path (put_media_type media_url media_type mime_type)
    (md5fn data) (get_extension_from_url media_url)

/-- The result dictionary of download_and_cache_media (file_size is the
only field that differs between the hit and miss branches). -/
def put_record (md5fn : Bytes → String) (media_url : String)
    (media_type : Option String) (data : Bytes) (mime_type : Option String)
    (file_size : Nat) : CacheResult :=
  { md5_sum := md5fn data,
    local_path := put_cache_path md5fn media_url media_type data mime_type,
    file_size := file_size, mime_type := mime_type,
    media_type := put_media_type media_url media_type mime_type,
    extension := get_extension_from_url media_url, url := media_url }

/-- download_and_cache_media.  Downloads first (one fetch per call,
counted in the third component), computes the digest of the downloaded
bytes, resolves media type (the override wins when truthy) and the
URL-derived extension, then: cache hit returns metadata from disk state;
a digest mismatch deletes the file and falls through to the write; a
miss writes the fetched bytes.  Fetch failure propagates as the error. -/
def download_and_cache_media (md5fn : Bytes → String) (fetch : String → FetchResult)
    (fs : FS) (media_url : String) (media_type : Option String) :
    Except String CacheResult × FS × Nat :=
  match fetch media_url with
  | .error e => (.error e, fs, 1)
  | .ok (data, mime_type) =>
    let cache_path := put_cache_path md5fn media_url media_type data mime_type
    if fsExists fs cache_path then
      if verify_cached_media md5fn fs cache_path (md5fn data) then
        -- cache hit: file size comes from the on-disk stat
        (.ok (put_record md5fn media_url media_type data mime_type
                (((fsRead fs cache_path).getD []).length)), fs, 1)
      else
        -- corrupted: unlink, then fall through to the write below
        (.ok (put_record md5fn media_url media_type data mime_type data.length),
         fsWrite (fsDelete fs cache_path) cache_path data, 1)
    else
      (.ok (put_record md5fn media_url media_type data mime_type data.length),
       fsWrite fs cache_path data, 1)

/-- download_multiple_media: each URL is attempted independently;
successes are collected, failures are logged (second list) and excluded.
The bounded thread pool with join-all semantics is modelled as a
sequential fold; `as_completed` ordering is not modelled.  The last
component counts network fetches. -/
def download_multiple_media (md5fn : Bytes → String) (fetch : String → FetchResult)
    (fs : FS) : List String → (List CacheResult × List String) × FS × Nat
  | [] => (([], []), fs, 0)
  | url :: rest =>
    match download_and_cache_media md5fn fetch fs url none with
    | (.ok r, fs1, k) =>
      let ((res, errs), fs2, n) := download_multiple_media md5fn fetch fs1 rest
      ((r :: res, errs), fs2, k + n)
    | (.error _, fs1, k) =>
      let ((res, errs), fs2, n) := download_multiple_media md5fn fetch fs1 rest
      ((res, url :: errs), fs2, k + n)

/-- `cache_dir.glob(f"{md5_sum}.*")`: paths in the filesystem lying
directly under `dir` whose name is the digest followed by a dot. -/
def glob_md5 (fs : FS) (dir : String) (md5_sum : String) : List String :=
  (fs.map (fun e => e.1)).filter
    (fun p => (dir ++ "/" ++ md5_sum ++ ".").data.isPrefixOf p.data)

/-- find_cached_by_md5: scan the three cache directories in order for a
file named `<md5_sum>.*`; the first match wins, else None.  There is no
fallback to the legacy URL-hash naming scheme here. -/
def find_cached_by_md5 (fs : FS) (md5_sum : String) : Option String :=
  match glob_md5 fs "cache/media/images" md5_sum with
  | p :: _ => some p
  | [] =>
    match glob_md5 fs "cache/media/videos" md5_sum with
    | p :: _ => some p
    | [] =>
      match glob_md5 fs "cache/media/documents" md5_sum with
      | p :: _ => some p
      | [] => none

/-- `url.encode('utf-8')` restricted to the code points (identical for
ASCII URLs, which is all the embedding hashes). -/
def strBytes (s : String) : Bytes :=
  s.data.map Char.toNat

/-- find_cached_by_url (legacy support): hash the URL itself and scan
for `<md5(url)>.*` in all cache directories. -/
def find_cached_by_url (md5fn : Bytes → String) (fs : FS) (url : String) :
    Option String :=
  find_cached_by_md5 fs (md5fn (strBytes url))

/-- A row of the post_media table, as inserted by extract_and_store_media
(manage_data.py).  ai_analysis_log is the list of event names of the
appended log entries (timestamps are outside the embedding). -/
structure MediaRecord where
  media_id : String
  post_id : String
  media_type : String
  media_url : String
  local_file_path : String
  md5_sum : String
  file_size : Nat
  mime_type : Option String
  ai_analysis_status : String
  ai_analysis_log : List String
deriving Repr, DecidableEq

/-- The post_media table, in insertion order (Supabase select returns
rows; the code uses the first). -/
abbrev Store := List MediaRecord

/-- `client.table('post_media').select('media_id').eq('post_id', p).eq('media_url', u)`
followed by taking the first row. -/
def find_post_media (store : Store) (post_id : String) (url : String) :
    Option MediaRecord :=
  store.find? (fun r => r.post_id == post_id && r.media_url == url)

/-- One entry of a post's `media.images` list. -/
structure ImageEntry where
  url : Option String
deriving Repr, DecidableEq

/-- The `media` dictionary of a post's JSON payload. -/
structure MediaPayload where
  type : Option String
  url : Option String
  images : List ImageEntry
deriving Repr, DecidableEq

/-- URL extraction of extract_and_store_media: nothing for a missing or
type-less payload; `image`/`video` take the single truthy `url`;
`images` takes every truthy url of the gallery; anything else yields
nothing. -/
def extract_media_urls (media : Option MediaPayload) : List (String × String) :=
  match media with
  | none => []
  | some m =>
    if !truthy m.type then []
    else if m.type == some "image" && truthy m.url then [(m.url.getD "", "image")]
    else if m.type == some "images" then
      m.images.filterMap (fun img =>
        match img.url with
        | some u => if u == "" then none else some (u, "image")
        | none => none)
    else if m.type == some "video" && truthy m.url then [(m.url.getD "", "video")]
    else []

/-- Mutable state threaded through the per-URL loop of
extract_and_store_media: the post_media table, the filesystem, the
media_id generator counter, the number of network fetches performed,
and the stats accumulators. -/
structure RecState where
  store : Store
  fs : FS
  counter : Nat
  fetches : Nat
  media_ids : List String
  cached : Nat
  errors : Nat
deriving Repr, DecidableEq

/-- One iteration of the loop: reuse an existing (post_id, url) record
without touching disk or network; otherwise download-and-cache, then
insert a fresh record (analysis status not_started, one
media_downloaded log event).  Any failure — fetch error, or the insert
raising (modelled by `insertFails`) — is caught: the error counter is
bumped and the loop continues.  An insert failure happens after the id
was generated and the file cached, so counter and filesystem advance. -/
def process_media_item (md5fn : Bytes → String) (fetch : String → FetchResult)
    (insertFails : String → Bool) (post_id : String) (st : RecState)
    (item : String × String) : RecState :=
  let url := item.1
  let mtype := item.2
  match find_post_media st.store post_id url with
  | some r =>
    { st with media_ids := st.media_ids ++ [r.media_id], cached := st.cached + 1 }
  | none =>
    match download_and_cache_media md5fn fetch st.fs url (some mtype) with
    | (.error _, fs1, k) =>
      { st with fs := fs1, fetches := st.fetches + k, errors := st.errors + 1 }
    | (.ok r, fs1, k) =>
      let media_id := "media-" ++ toString st.counter
      if insertFails url then
        { st with fs := fs1, fetches := st.fetches + k, counter := st.counter + 1,
                  errors := st.errors + 1 }
      else
        let rec0 : MediaRecord :=
          { media_id := media_id, post_id := post_id, media_type := r.media_type,
            media_url := url, local_file_path := r.local_path,
            md5_sum := r.md5_sum, file_size := r.file_size,
            mime_type := r.mime_type, ai_analysis_status := "not_started",
            ai_analysis_log := ["media_downloaded"] }
        { st with store := st.store ++ [rec0], fs := fs1,
                  fetches := st.fetches + k, counter := st.counter + 1,
                  media_ids := st.media_ids ++ [media_id],
                  cached := st.cached + 1 }

/-- The statistics dictionary returned by extract_and_store_media. -/
structure MediaStats where
  media_ids : List String
  media_count : Nat
  media_cached : Nat
  media_errors : Nat
deriving Repr, DecidableEq

/-- Full outcome of one extract_and_store_media call: returned stats,
and the post-state of its collaborators (post_media table, filesystem,
number of network fetches performed). -/
structure RecOutcome where
  stats : MediaStats
  store : Store
  fs : FS
  fetches : Nat
deriving Repr, DecidableEq

/-- extract_and_store_media: extract the media URLs of the payload
(returning all-zero stats when there are none), then run the per-URL
loop; media_count is the number of extracted URLs. -/
def extract_and_store_media (md5fn : Bytes → String) (fetch : String → FetchResult)
    (insertFails : String → Bool) (store : Store) (fs : FS) (post_id : String)
    (media : Option MediaPayload) : RecOutcome :=
  let items := extract_media_urls media
  let st0 : RecState := { store := store, fs := fs, counter := 0, fetches := 0,
                          media_ids := [], cached := 0, errors := 0 }
  let stF := items.foldl (process_media_item md5fn fetch insertFails post_id) st0
  { stats := { media_ids := stF.media_ids, media_count := items.length,
               media_cached := stF.cached, media_errors := stF.errors },
    store := stF.store, fs := stF.fs, fetches := stF.fetches }

/-- A concrete digest function for witnesses: "h" followed by the
hyphen-separated byte values (injective on byte lists). -/
def md5_test : Bytes → String :=
  fun b => b.foldl (fun s n => s ++ "-" ++ toString n) "h"

/-- A concrete network for witnesses: two URLs serving the same single
byte under different extensions, one serving a distinct byte, and
everything else failing. -/
def fetch_test : String → FetchResult := fun u =>
  if u == "http://x/a.jpg" then .ok ([1], some "image/jpeg")
  else if u == "http://x/b.png" then .ok ([1], none)
  else if u == "http://y/c.jpg" then .ok ([2], none)
  else if u == "http://y/d.jpg" then .ok ([1], some "image/jpeg")
  else .error "404"

/-- A gallery payload `{type:"images", images:[{url:u1},{url:u2}]}`. -/
def images_payload (u1 u2 : String) : Option MediaPayload :=
  some { type := some "images", url := none, images := [⟨some u1⟩, ⟨some u2⟩] }

/- ### Helper lemmas about the filesystem model -/

theorem fsRead_fsWrite_self (fs : FS) (p : String) (b : Bytes) :
    fsRead (fsWrite fs p b) p = some b := by
  simp [fsRead, fsWrite]

theorem fsExists_fsWrite_self (fs : FS) (p : String) (b : Bytes) :
    fsExists (fsWrite fs p b) p = true := by
  simp [fsExists, fsRead_fsWrite_self]

theorem verify_fsWrite_self (md5fn : Bytes → String) (fs : FS) (p : String)
    (b : Bytes) :
    verify_cached_media md5fn (fsWrite fs p b) p (md5fn b) = true := by
  simp [verify_cached_media, fsRead_fsWrite_self]

theorem verify_true_iff (md5fn : Bytes → String) (fs : FS) (p : String)
    (e : String) :
    verify_cached_media md5fn fs p e = true
      ↔ ∃ b, fsRead fs p = some b ∧ md5fn b = e := by
  unfold verify_cached_media
  cases h : fsRead fs p <;> simp [h]

/- ### Characterizations of the four branches of download_and_cache_media -/

theorem put_eq_error (md5fn : Bytes → String) (fetch : String → FetchResult)
    (fs : FS) (url : String) (mt : Option String) (e : String)
    (h : fetch url = .error e) :
    download_and_cache_media md5fn fetch fs url mt = (.error e, fs, 1) := by
  simp [download_and_cache_media, h]

theorem put_eq_hit (md5fn : Bytes → String) (fetch : String → FetchResult)
    (fs : FS) (url : String) (mt : Option String) (data : Bytes)
    (mime : Option String) (h : fetch url = .ok (data, mime))
    (hv : verify_cached_media md5fn fs (put_cache_path md5fn url mt data mime)
            (md5fn data) = true) :
    download_and_cache_media md5fn fetch fs url mt
      = (.ok (put_record md5fn url mt data mime
               (((fsRead fs (put_cache_path md5fn url mt data mime)).getD []).length)),
         fs, 1) := by
  have hex : fsExists fs (put_cache_path md5fn url mt data mime) = true := by
    rcases (verify_true_iff md5fn fs _ _).1 hv with ⟨b, hb, _⟩
    simp [fsExists, hb]
  simp [download_and_cache_media, h, hex, hv]

theorem put_eq_rewrite (md5fn : Bytes → String) (fetch : String → FetchResult)
    (fs : FS) (url : String) (mt : Option String) (data : Bytes)
    (mime : Option String) (h : fetch url = .ok (data, mime))
    (hex : fsExists fs (put_cache_path md5fn url mt data mime) = true)
    (hv : verify_cached_media md5fn fs (put_cache_path md5fn url mt data mime)
            (md5fn data) = false) :
    download_and_cache_media md5fn fetch fs url mt
      = (.ok (put_record md5fn url mt data mime data.length),
         fsWrite (fsDelete fs (put_cache_path md5fn url mt data mime))
           (put_cache_path md5fn url mt data mime) data, 1) := by
  simp [download_and_cache_media, h, hex, hv]

theorem put_eq_miss (md5fn : Bytes → String) (fetch : String → FetchResult)
    (fs : FS) (url : String) (mt : Option String) (data : Bytes)
    (mime : Option String) (h : fetch url = .ok (data, mime))
    (hex : fsExists fs (put_cache_path md5fn url mt data mime) = false) :
    download_and_cache_media md5fn fetch fs url mt
      = (.ok (put_record md5fn url mt data mime data.length),
         fsWrite fs (put_cache_path md5fn url mt data mime) data, 1) := by
  simp [download_and_cache_media, h, hex]

/-- Every call performs exactly one network fetch, whatever happens. -/
theorem put_fetch_count (md5fn : Bytes → String) (fetch : String → FetchResult)
    (fs : FS) (url : String) (mt : Option String) :
    (download_and_cache_media md5fn fetch fs url mt).2.2 = 1 := by
  unfold download_and_cache_media
  rcases h : fetch url with e | ⟨data, mime⟩
  · rfl
  · dsimp only
    split
    · split <;> rfl
    · rfl

/-- Inversion for a successful call: the fetch succeeded, the count is
one, and the outcome is a hit, a corruption rewrite, or a miss write. -/
theorem put_ok_cases (md5fn : Bytes → String) (fetch : String → FetchResult)
    (fs : FS) (url : String) (mt : Option String) (r : CacheResult) (fs1 : FS)
    (k : Nat)
    (h : download_and_cache_media md5fn fetch fs url mt = (.ok r, fs1, k)) :
    ∃ data mime, fetch url = .ok (data, mime) ∧ k = 1 ∧
      ((fs1 = fs
          ∧ ∃ b, fsRead fs (put_cache_path md5fn url mt data mime) = some b
              ∧ md5fn b = md5fn data
              ∧ r = put_record md5fn url mt data mime b.length)
       ∨ (verify_cached_media md5fn fs (put_cache_path md5fn url mt data mime)
             (md5fn data) = false
          ∧ fs1 = fsWrite (fsDelete fs (put_cache_path md5fn url mt data mime))
              (put_cache_path md5fn url mt data mime) data
          ∧ r = put_record md5fn url mt data mime data.length)
       ∨ (fsExists fs (put_cache_path md5fn url mt data mime) = false
          ∧ fs1 = fsWrite fs (put_cache_path md5fn url mt data mime) data
          ∧ r = put_record md5fn url mt data mime data.length)) := by
  rcases hf : fetch url with e | ⟨data, mime⟩
  · rw [put_eq_error md5fn fetch fs url mt e hf] at h
    simp at h
  · refine ⟨data, mime, rfl, ?_⟩
    cases hex : fsExists fs (put_cache_path md5fn url mt data mime) with
    | false =>
      rw [put_eq_miss md5fn fetch fs url mt data mime hf hex] at h
      simp only [Prod.mk.injEq, Except.ok.injEq] at h
      obtain ⟨hr, hfs, hk⟩ := h
      exact ⟨hk.symm, Or.inr (Or.inr ⟨rfl, hfs.symm, hr.symm⟩)⟩
    | true =>
      cases hv : verify_cached_media md5fn fs
          (put_cache_path md5fn url mt data mime) (md5fn data) with
      | false =>
        rw [put_eq_rewrite md5fn fetch fs url mt data mime hf hex hv] at h
        simp only [Prod.mk.injEq, Except.ok.injEq] at h
        obtain ⟨hr, hfs, hk⟩ := h
        exact ⟨hk.symm, Or.inr (Or.inl ⟨rfl, hfs.symm, hr.symm⟩)⟩
      | true =>
        rw [put_eq_hit md5fn fetch fs url mt data mime hf hv] at h
        simp only [Prod.mk.injEq, Except.ok.injEq] at h
        obtain ⟨hr, hfs, hk⟩ := h
        rcases (verify_true_iff md5fn fs _ _).1 hv with ⟨b, hb, hbm⟩
        refine ⟨hk.symm, Or.inl ⟨hfs.symm, b, hb, hbm, ?_⟩⟩
        rw [← hr, hb]
        rfl

/- ### Cache path analysis -/

/-- cacheDirFor always lands in one of the three cache directories. -/
theorem cacheDirFor_cases (mt : String) :
    cacheDirFor mt = "cache/media/images" ∨ cacheDirFor mt = "cache/media/videos"
      ∨ cacheDirFor mt = "cache/media/documents" := by
  unfold cacheDirFor CACHE_DIRS
  cases hb1 : (("image" : String) == mt) <;>
    cases hb2 : (("video" : String) == mt) <;>
      cases hb3 : (("document" : String) == mt) <;>
        simp [List.find?, hb1, hb2, hb3]

/-- Two lists with distinguishable 13-character prefixes stay different
under arbitrary right extensions. -/
theorem append_take_ne {A B : List Char} (u v : List Char)
    (hA : A.take 13 ≠ B.take 13) (hlA : 13 ≤ A.length) (hlB : 13 ≤ B.length) :
    A ++ u ≠ B ++ v := by
  intro h
  have t := congrArg (List.take 13) h
  rw [List.take_append_of_le_length hlA, List.take_append_of_le_length hlB] at t
  exact hA t

/-- Deterministic paths separate digests: equal-length distinct digests
never share a path, whatever the media types and extensions. -/
theorem get_media_cache_path_inj (mt1 mt2 h1 h2 e1 e2 : String)
    (hlen : h1.length = h2.length)
    (heq : get_media_cache_path mt1 h1 e1 = get_media_cache_path mt2 h2 e2) :
    h1 = h2 := by
  have hd := congrArg String.data heq
  unfold get_media_cache_path at hd
  simp only [String.data_append, List.append_assoc] at hd
  rcases cacheDirFor_cases mt1 with hA | hA | hA <;>
    rcases cacheDirFor_cases mt2 with hB | hB | hB <;>
      rw [hA, hB] at hd <;>
        first
          | exact String.ext
              (List.append_inj
                (List.append_cancel_left (List.append_cancel_left hd)) hlen).1
          | exact absurd hd (append_take_ne _ _ (by decide) (by decide) (by decide))

/- ### Claim C1 -/

/-- C1, counterexample to the claim as stated: "http://x/a.jpg" and
"http://x/b.png" are distinct URLs whose fetched bytes are the identical
[1], yet after caching both, TWO physical files exist (the path embeds
the URL-derived extension), not exactly one. -/
theorem c1_counterexample :
    fetch_test "http://x/a.jpg" = .ok ([1], some "image/jpeg")
    ∧ fetch_test "http://x/b.png" = .ok ([1], none)
    ∧ ((download_and_cache_media md5_test fetch_test
          (download_and_cache_media md5_test fetch_test [] "http://x/a.jpg" none).2.1
          "http://x/b.png" none).2.1).length = 2
    ∧ ¬ ((download_and_cache_media md5_test fetch_test
          (download_and_cache_media md5_test fetch_test [] "http://x/a.jpg" none).2.1
          "http://x/b.png" none).2.1).length = 1 := by
  refine ⟨rfl, rfl, by decide, by decide⟩

/-- C1 (amended): content dedup holds per (class, extension) pair: two
URLs with byte-identical content that also resolve to the same class and
the same URL-derived extension share exactly one physical file, named by
the digest of the bytes; and two fixed-length digests that differ never
share a path, whatever the class and extension. -/
theorem c1_content_dedup :
    (∀ (md5fn : Bytes → String) (fetch : String → FetchResult)
       (u1 u2 : String) (b : Bytes) (m1 m2 : Option String),
       fetch u1 = .ok (b, m1) → fetch u2 = .ok (b, m2) →
       get_extension_from_url u1 = get_extension_from_url u2 →
       detect_media_type u1 m1 = detect_media_type u2 m2 →
       (download_and_cache_media md5fn fetch
          (download_and_cache_media md5fn fetch [] u1 none).2.1 u2 none).2.1
         = [(get_media_cache_path (detect_media_type u1 m1) (md5fn b)
               (get_extension_from_url u1), b)])
    ∧ (∀ mt1 mt2 h1 h2 e1 e2 : String, h1.length = h2.length → h1 ≠ h2 →
        get_media_cache_path mt1 h1 e1 ≠ get_media_cache_path mt2 h2 e2) := by
  constructor
  · intro md5fn fetch u1 u2 b m1 m2 hf1 hf2 hext hmt
    have hpath : put_cache_path md5fn u2 none b m2
        = put_cache_path md5fn u1 none b m1 := by
      simp [put_cache_path, put_media_type, truthy, hext, hmt]
    have hmt1 : put_media_type u1 none m1 = detect_media_type u1 m1 := by
      simp [put_media_type, truthy]
    have h1 := put_eq_miss md5fn fetch [] u1 none b m1 hf1 rfl
    have hfs1 : (download_and_cache_media md5fn fetch [] u1 none).2.1
        = fsWrite [] (put_cache_path md5fn u1 none b m1) b := by rw [h1]
    rw [hfs1]
    have hv : verify_cached_media md5fn
        (fsWrite [] (put_cache_path md5fn u1 none b m1) b)
        (put_cache_path md5fn u2 none b m2) (md5fn b) = true := by
      rw [hpath]
      exact verify_fsWrite_self md5fn [] _ b
    have h2 := put_eq_hit md5fn fetch
      (fsWrite [] (put_cache_path md5fn u1 none b m1) b) u2 none b m2 hf2 hv
    have hfs2 : (download_and_cache_media md5fn fetch
        (fsWrite [] (put_cache_path md5fn u1 none b m1) b) u2 none).2.1
        = fsWrite [] (put_cache_path md5fn u1 none b m1) b := by rw [h2]
    rw [hfs2]
    simp [fsWrite, put_cache_path, hmt1]
  · intro mt1 mt2 h1 h2 e1 e2 hlen hne heq
    exact hne (get_media_cache_path_inj mt1 mt2 h1 h2 e1 e2 hlen heq)

/-- Witness for C1: a.jpg and d.jpg serve the identical byte [1] with
the same extension and class, and end up as the single file
cache/media/images/h-1.jpg; "h-1" and "h-2" never share a path. -/
theorem c1_witness :
    (download_and_cache_media md5_test fetch_test
        (download_and_cache_media md5_test fetch_test [] "http://x/a.jpg" none).2.1
        "http://y/d.jpg" none).2.1
      = [(get_media_cache_path (detect_media_type "http://x/a.jpg" (some "image/jpeg"))
           (md5_test [1]) (get_extension_from_url "http://x/a.jpg"), [1])]
    ∧ get_media_cache_path "image" "h-1" ".jpg"
        ≠ get_media_cache_path "video" "h-2" ".png" :=
  ⟨c1_content_dedup.1 md5_test fetch_test "http://x/a.jpg" "http://y/d.jpg" [1]
      (some "image/jpeg") (some "image/jpeg") rfl rfl
      (by decide) (by decide),
   c1_content_dedup.2 "image" "video" "h-1" "h-2" ".jpg" ".png"
      (by decide) (by decide)⟩

/- ### Claim C2 -/

/-- C2, counterexample to the claim as stated: download_and_cache_media
fetches BEFORE consulting the cache (the digest needed for the lookup
comes from the downloaded bytes), so two consecutive calls for the same
URL perform two network fetches, not exactly one. -/
theorem c2_counterexample :
    (download_and_cache_media md5_test fetch_test [] "http://x/a.jpg" none).2.2
      + (download_and_cache_media md5_test fetch_test
          (download_and_cache_media md5_test fetch_test [] "http://x/a.jpg" none).2.1
          "http://x/a.jpg" none).2.2 = 2
    ∧ ¬ ((download_and_cache_media md5_test fetch_test [] "http://x/a.jpg" none).2.2
      + (download_and_cache_media md5_test fetch_test
          (download_and_cache_media md5_test fetch_test [] "http://x/a.jpg" none).2.1
          "http://x/a.jpg" none).2.2 = 1) := by
  exact ⟨by decide, by decide⟩

/-- C2 (amended): every call performs exactly one network fetch (so two
calls perform two, not one), but disk persistence is idempotent: after a
successful call, a second call with no intervening corruption is a cache
hit returning the identical metadata and leaving the filesystem
unchanged (no rewrite). -/
theorem c2_put_idempotent :
    (∀ (md5fn : Bytes → String) (fetch : String → FetchResult) (fs : FS)
       (url : String) (mt : Option String),
       (download_and_cache_media md5fn fetch fs url mt).2.2 = 1)
    ∧ (∀ (md5fn : Bytes → String) (fetch : String → FetchResult) (fs : FS)
       (url : String) (mt : Option String) (r : CacheResult) (fs1 : FS),
       download_and_cache_media md5fn fetch fs url mt = (.ok r, fs1, 1) →
       download_and_cache_media md5fn fetch fs1 url mt = (.ok r, fs1, 1)) := by
  refine ⟨put_fetch_count, ?_⟩
  intro md5fn fetch fs url mt r fs1 h
  rcases put_ok_cases md5fn fetch fs url mt r fs1 1 h with
    ⟨data, mime, hf, _, hcase⟩
  rcases hcase with ⟨hfs, b, hb, hbm, hr⟩ | ⟨_, hfs, hr⟩ | ⟨_, hfs, hr⟩
  · -- first call was itself a hit: the state is unchanged, so the second
    -- call is the very same computation
    subst hfs
    exact h
  · -- first call rewrote a corrupted file: the second call finds the
    -- freshly written bytes and hits
    subst hfs
    have hv := verify_fsWrite_self md5fn
      (fsDelete fs (put_cache_path md5fn url mt data mime))
      (put_cache_path md5fn url mt data mime) data
    have h2 := put_eq_hit md5fn fetch _ url mt data mime hf hv
    rw [h2, fsRead_fsWrite_self, hr]
    rfl
  · -- first call was a plain miss write: same as the corruption case
    subst hfs
    have hv := verify_fsWrite_self md5fn fs
      (put_cache_path md5fn url mt data mime) data
    have h2 := put_eq_hit md5fn fetch _ url mt data mime hf hv
    rw [h2, fsRead_fsWrite_self, hr]
    rfl

/-- Witness for C2: the second call for a.jpg on the filesystem produced
by the first call returns the first call's result unchanged. -/
theorem c2_witness :
    download_and_cache_media md5_test fetch_test
        [("cache/media/images/h-1.jpg", [1])] "http://x/a.jpg" none
      = (.ok { md5_sum := "h-1", local_path := "cache/media/images/h-1.jpg",
               file_size := 1, mime_type := some "image/jpeg",
               media_type := "image", extension := ".jpg",
               url := "http://x/a.jpg" },
         [("cache/media/images/h-1.jpg", [1])], 1) :=
  c2_put_idempotent.2 md5_test fetch_test [] "http://x/a.jpg" none
    { md5_sum := "h-1", local_path := "cache/media/images/h-1.jpg",
      file_size := 1, mime_type := some "image/jpeg", media_type := "image",
      extension := ".jpg", url := "http://x/a.jpg" }
    [("cache/media/images/h-1.jpg", [1])] rfl

/- ### Claim C3 -/

/-- C3: put postcondition and self-healing.  Whenever
download_and_cache_media returns successfully, the file on disk at the
returned local path has a digest equal to the returned digest; and when
a file already existed at the deterministic path with a digest mismatch,
the call deletes it and rewrites the fetched bytes there (whose digest
is the path's digest by construction). -/
theorem c3_put_postcondition :
    (∀ (md5fn : Bytes → String) (fetch : String → FetchResult) (fs : FS)
       (url : String) (mt : Option String) (r : CacheResult) (fs1 : FS) (k : Nat),
       download_and_cache_media md5fn fetch fs url mt = (.ok r, fs1, k) →
       ∃ b, fsRead fs1 r.local_path = some b ∧ md5fn b = r.md5_sum)
    ∧ (∀ (md5fn : Bytes → String) (fetch : String → FetchResult) (fs : FS)
       (url : String) (mt : Option String) (data : Bytes) (mime : Option String),
       fetch url = .ok (data, mime) →
       fsExists fs (put_cache_path md5fn url mt data mime) = true →
       verify_cached_media md5fn fs (put_cache_path md5fn url mt data mime)
         (md5fn data) = false →
       download_and_cache_media md5fn fetch fs url mt
         = (.ok (put_record md5fn url mt data mime data.length),
            fsWrite (fsDelete fs (put_cache_path md5fn url mt data mime))
              (put_cache_path md5fn url mt data mime) data, 1)) := by
  constructor
  · intro md5fn fetch fs url mt r fs1 k h
    rcases put_ok_cases md5fn fetch fs url mt r fs1 k h with
      ⟨data, mime, _, _, hcase⟩
    rcases hcase with ⟨hfs, b, hb, hbm, hr⟩ | ⟨_, hfs, hr⟩ | ⟨_, hfs, hr⟩
    · subst hfs
      subst hr
      exact ⟨b, hb, hbm⟩
    · subst hfs
      subst hr
      exact ⟨data, fsRead_fsWrite_self _ _ _, rfl⟩
    · subst hfs
      subst hr
      exact ⟨data, fsRead_fsWrite_self _ _ _, rfl⟩
  · exact fun md5fn fetch fs url mt data mime hf hex hv =>
      put_eq_rewrite md5fn fetch fs url mt data mime hf hex hv

/-- Witness for C3: part one applied to a fresh download of a.jpg; part
two applied to a corrupted cache entry (the path for digest "h-1" holds
byte 9), which is deleted and rewritten with the fetched byte 1. -/
theorem c3_witness :
    (∃ b, fsRead [("cache/media/images/h-1.jpg", [1])]
            "cache/media/images/h-1.jpg" = some b ∧ md5_test b = "h-1")
    ∧ download_and_cache_media md5_test fetch_test
        [("cache/media/images/h-1.jpg", [9])] "http://x/a.jpg" none
      = (.ok (put_record md5_test "http://x/a.jpg" none [1]
                (some "image/jpeg") 1),
         fsWrite (fsDelete [("cache/media/images/h-1.jpg", [9])]
             "cache/media/images/h-1.jpg")
           "cache/media/images/h-1.jpg" [1], 1) := by
  constructor
  · exact c3_put_postcondition.1 md5_test fetch_test [] "http://x/a.jpg" none
      (put_record md5_test "http://x/a.jpg" none [1] (some "image/jpeg") 1)
      [("cache/media/images/h-1.jpg", [1])] 1 rfl
  · exact c3_put_postcondition.2 md5_test fetch_test
      [("cache/media/images/h-1.jpg", [9])] "http://x/a.jpg" none [1]
      (some "image/jpeg") rfl (by decide) (by decide)

/- ### Claim C10 -/

/-- C10: get_media_cache_path is total and always lands under one of the
three cache directories; any unrecognized media type silently maps to
the images directory. -/
theorem c10_cache_path_total :
    ∀ (media_type md5_sum extension : String),
      (get_media_cache_path media_type md5_sum extension
          = "cache/media/images" ++ "/" ++ md5_sum ++ extension
        ∨ get_media_cache_path media_type md5_sum extension
          = "cache/media/videos" ++ "/" ++ md5_sum ++ extension
        ∨ get_media_cache_path media_type md5_sum extension
          = "cache/media/documents" ++ "/" ++ md5_sum ++ extension)
      ∧ (media_type ≠ "image" → media_type ≠ "video" → media_type ≠ "document" →
          get_media_cache_path media_type md5_sum extension
            = "cache/media/images" ++ "/" ++ md5_sum ++ extension) := by
  intro mt md5 ext
  constructor
  · rcases cacheDirFor_cases mt with h | h | h <;>
      unfold get_media_cache_path <;> rw [h] <;> tauto
  · intro h1 h2 h3
    have b1 : (("image" : String) == mt) = false :=
      beq_eq_false_iff_ne.mpr (fun e => h1 e.symm)
    have b2 : (("video" : String) == mt) = false :=
      beq_eq_false_iff_ne.mpr (fun e => h2 e.symm)
    have b3 : (("document" : String) == mt) = false :=
      beq_eq_false_iff_ne.mpr (fun e => h3 e.symm)
    unfold get_media_cache_path cacheDirFor CACHE_DIRS
    simp [List.find?, b1, b2, b3]

/-- Witness for C10: the unrecognized type "audio" resolves under the
images directory. -/
theorem c10_witness :
    get_media_cache_path "audio" "d00d" ".bin"
      = "cache/media/images" ++ "/" ++ "d00d" ++ ".bin" :=
  (c10_cache_path_total "audio" "d00d" ".bin").2
    (by decide) (by decide) (by decide)

/- ### Claim C7 -/

/-- C7, counterexample to the claim as stated: with hint "image/png" and
the URL "http://x/photo" (no extension token in the path) the class is
image but the extension is ".bin", not ".png" — the extension is never
taken from the content-type hint. -/
theorem c7_counterexample :
    detect_media_type "http://x/photo" (some "image/png") = "image"
    ∧ get_extension_from_url "http://x/photo" = ".bin"
    ∧ (".bin" : String) ≠ ".png" :=
  ⟨by decide, by decide, by decide⟩

/-- C7 (amended): hint "image/png" yields class image for every URL,
while the extension is computed from the URL alone; a URL whose derived
extension is ".mp4" with no hint yields class video (concretely
"http://x/v.mp4" gives (video, .mp4)); the hint table takes priority
over the URL-extension table for the class; and an unrecognized hint
together with a URL deriving ".bin" defaults to class image. -/
theorem c7_type_detection :
    (∀ url : String, detect_media_type url (some "image/png") = "image")
    ∧ (∀ url : String, get_extension_from_url url = ".mp4" →
        detect_media_type url none = "video")
    ∧ (get_extension_from_url "http://x/v.mp4" = ".mp4"
       ∧ detect_media_type "http://x/v.mp4" none = "video")
    ∧ (∀ (url m t : String), (m == "") = false →
        (MIME_TO_MEDIA_TYPE.find? (fun kv => kv.1 == m)).map (fun kv => kv.2)
          = some t →
        detect_media_type url (some m) = t)
    ∧ (∀ (url m : String),
        MIME_TO_MEDIA_TYPE.find? (fun kv => kv.1 == m) = none →
        get_extension_from_url url = ".bin" →
        detect_media_type url (some m) = "image") := by
  refine ⟨fun url => rfl, ?_, ⟨by decide, by decide⟩, ?_, ?_⟩
  · intro url hext
    simp [detect_media_type, hext, List.find?]
  · intro url m t hm hfind
    simp [detect_media_type, hm, hfind]
  · intro url m hnone hext
    simp only [detect_media_type, hnone, hext]
    cases hm : (m == "") <;> simp [hm, List.find?]

/-- Witness for C7: the hypothesis-bearing conjuncts applied at concrete
inputs — a .mp4 URL classifies as video, "application/pdf" wins over any
URL for class document, and an unknown hint with a token-less URL
defaults to image. -/
theorem c7_witness :
    detect_media_type "http://y/clip.mp4" none = "video"
    ∧ detect_media_type "http://y/clip.mp4" (some "application/pdf") = "document"
    ∧ detect_media_type "http://x/data" (some "weird/type") = "image" :=
  ⟨c7_type_detection.2.1 "http://y/clip.mp4" (by decide),
   c7_type_detection.2.2.2.1 "http://y/clip.mp4" "application/pdf" "document"
     (by decide) (by decide),
   c7_type_detection.2.2.2.2 "http://x/data" "weird/type"
     (by decide) (by decide)⟩

/- ### Claim C8 -/

/-- C8, counterexample to the claim as stated: a cache holding only the
legacy file for URL "u" (named by the digest of the URL, here "h-117",
and containing bytes [5] whose content digest is "h-5").  The legacy
lookup by URL finds it, but the lookup by content digest "h-5" returns
none — find_cached_by_md5 declares "not found" WITHOUT falling back to
the legacy URL-hash naming scheme. -/
theorem c8_counterexample :
    find_cached_by_url md5_test [("cache/media/images/h-117.jpg", [5])] "u"
      = some "cache/media/images/h-117.jpg"
    ∧ md5_test [5] = "h-5"
    ∧ find_cached_by_md5 [("cache/media/images/h-117.jpg", [5])] "h-5" = none :=
  ⟨by decide, by decide, by decide⟩

/-- C8 (amended): lookup by content digest scans exactly the three cache
directories for files named `<digest>.*` and returns none when no such
file exists — the legacy URL-hash scheme is served by the separate
operation find_cached_by_url (a digest lookup keyed on the digest of the
URL), which callers must invoke themselves; and all new writes are
content-addressed: a successful put always returns a path equal to
`get_media_cache_path class digest extension` for the digest of the
fetched bytes. -/
theorem c8_legacy_lookup :
    (∀ (fs : FS) (md5_sum : String),
       find_cached_by_md5 fs md5_sum = none
         ↔ glob_md5 fs "cache/media/images" md5_sum = []
           ∧ glob_md5 fs "cache/media/videos" md5_sum = []
           ∧ glob_md5 fs "cache/media/documents" md5_sum = [])
    ∧ (∀ (md5fn : Bytes → String) (fs : FS) (url : String),
        find_cached_by_url md5fn fs url
          = find_cached_by_md5 fs (md5fn (strBytes url)))
    ∧ (∀ (md5fn : Bytes → String) (fetch : String → FetchResult) (fs : FS)
       (url : String) (mt : Option String) (r : CacheResult) (fs1 : FS) (k : Nat),
       download_and_cache_media md5fn fetch fs url mt = (.ok r, fs1, k) →
       ∃ data mime, fetch url = .ok (data, mime) ∧ r.md5_sum = md5fn data
         ∧ r.local_path
             = get_media_cache_path r.media_type r.md5_sum r.extension) := by
  refine ⟨?_, fun md5fn fs url => rfl, ?_⟩
  · intro fs md5
    unfold find_cached_by_md5
    cases h1 : glob_md5 fs "cache/media/images" md5 <;>
      cases h2 : glob_md5 fs "cache/media/videos" md5 <;>
        cases h3 : glob_md5 fs "cache/media/documents" md5 <;>
          simp [h1, h2, h3]
  · intro md5fn fetch fs url mt r fs1 k h
    rcases put_ok_cases md5fn fetch fs url mt r fs1 k h with
      ⟨data, mime, hf, _, hcase⟩
    rcases hcase with ⟨_, b, _, _, hr⟩ | ⟨_, _, hr⟩ | ⟨_, _, hr⟩ <;>
      exact ⟨data, mime, hf, by rw [hr]; rfl, by rw [hr]; rfl⟩

/-- Witness for C8: the digest-lookup characterization evaluated on a
one-file cache, and the content-addressing clause applied to a fresh
download of a.jpg. -/
theorem c8_witness :
    (glob_md5 [("cache/media/videos/x.9", [1])] "cache/media/images" "h" = []
     ∧ glob_md5 [("cache/media/videos/x.9", [1])] "cache/media/videos" "h" = []
     ∧ glob_md5 [("cache/media/videos/x.9", [1])] "cache/media/documents" "h" = [])
    ∧ ∃ data mime, fetch_test "http://x/a.jpg" = .ok (data, mime)
        ∧ (put_record md5_test "http://x/a.jpg" none [1]
             (some "image/jpeg") 1).md5_sum = md5_test data
        ∧ (put_record md5_test "http://x/a.jpg" none [1]
             (some "image/jpeg") 1).local_path
            = get_media_cache_path
                (put_record md5_test "http://x/a.jpg" none [1]
                  (some "image/jpeg") 1).media_type
                (put_record md5_test "http://x/a.jpg" none [1]
                  (some "image/jpeg") 1).md5_sum
                (put_record md5_test "http://x/a.jpg" none [1]
                  (some "image/jpeg") 1).extension :=
  ⟨(c8_legacy_lookup.1 [("cache/media/videos/x.9", [1])] "h").mp (by decide),
   c8_legacy_lookup.2.2 md5_test fetch_test [] "http://x/a.jpg" none
     (put_record md5_test "http://x/a.jpg" none [1] (some "image/jpeg") 1)
     [("cache/media/images/h-1.jpg", [1])] 1 rfl⟩

/- ### Claim C5 -/

/-- A successful fetch always yields a successful put (one fetch). -/
theorem put_ok_of_fetch_ok (md5fn : Bytes → String) (fetch : String → FetchResult)
    (fs : FS) (url : String) (mt : Option String) (data : Bytes)
    (mime : Option String) (hf : fetch url = .ok (data, mime)) :
    ∃ r fs1, download_and_cache_media md5fn fetch fs url mt
      = (.ok r, fs1, 1) := by
  cases hex : fsExists fs (put_cache_path md5fn url mt data mime) with
  | false => exact ⟨_, _, put_eq_miss md5fn fetch fs url mt data mime hf hex⟩
  | true =>
    cases hv : verify_cached_media md5fn fs
        (put_cache_path md5fn url mt data mime) (md5fn data) with
    | true => exact ⟨_, _, put_eq_hit md5fn fetch fs url mt data mime hf hv⟩
    | false =>
      exact ⟨_, _, put_eq_rewrite md5fn fetch fs url mt data mime hf hex hv⟩

/-- C5: batch isolation.  For every URL list, download_multiple_media
returns exactly the successes (one per URL whose fetch succeeds), logs
exactly the failures, and accounts for every submitted URL (join-all);
being a total function, no exception escapes and one URL's failure never
aborts the processing of its siblings. -/
theorem c5_batch_isolation :
    ∀ (md5fn : Bytes → String) (fetch : String → FetchResult) (fs : FS)
      (urls : List String),
      ((download_multiple_media md5fn fetch fs urls).1.1).length
          = (urls.filter (fun u => (fetch u).isOk)).length
      ∧ ((download_multiple_media md5fn fetch fs urls).1.2).length
          = (urls.filter (fun u => !(fetch u).isOk)).length
      ∧ ((download_multiple_media md5fn fetch fs urls).1.1).length
          + ((download_multiple_media md5fn fetch fs urls).1.2).length
          = urls.length := by
  intro md5fn fetch fs urls
  induction urls generalizing fs with
  | nil => simp [download_multiple_media]
  | cons u rest ih =>
    rcases hf : fetch u with e | ⟨data, mime⟩
    · have hput := put_eq_error md5fn fetch fs u none e hf
      have hrec := ih fs
      simp only [download_multiple_media, hput]
      simp_all [Except.isOk, Except.toBool]
      omega
    · obtain ⟨r, fs1, hput⟩ := put_ok_of_fetch_ok md5fn fetch fs u none data mime hf
      have hrec := ih fs1
      simp only [download_multiple_media, hput]
      simp_all [Except.isOk, Except.toBool]
      omega

/- ### Reconciler step lemmas -/

/-- An existing (post_id, url) record is reused: no disk, network, id
generation or store change; its id is appended and cached bumped. -/
theorem process_found (md5fn : Bytes → String) (fetch : String → FetchResult)
    (insertFails : String → Bool) (post_id : String) (st : RecState)
    (url mtype : String) (r : MediaRecord)
    (hfind : find_post_media st.store post_id url = some r) :
    process_media_item md5fn fetch insertFails post_id st (url, mtype)
      = { st with media_ids := st.media_ids ++ [r.media_id],
                  cached := st.cached + 1 } := by
  unfold process_media_item
  dsimp only
  rw [hfind]

/-- A new URL whose download and insert succeed: one fetch, one fresh
id, a new record appended to the store, cached bumped. -/
theorem process_new (md5fn : Bytes → String) (fetch : String → FetchResult)
    (insertFails : String → Bool) (post_id : String) (st : RecState)
    (url mtype : String) (r : CacheResult) (fs1 : FS)
    (hfind : find_post_media st.store post_id url = none)
    (hins : insertFails url = false)
    (hput : download_and_cache_media md5fn fetch st.fs url (some mtype)
      = (.ok r, fs1, 1)) :
    process_media_item md5fn fetch insertFails post_id st (url, mtype)
      = { st with
            store := st.store ++
              [{ media_id := "media-" ++ toString st.counter,
                 post_id := post_id, media_type := r.media_type,
                 media_url := url, local_file_path := r.local_path,
                 md5_sum := r.md5_sum, file_size := r.file_size,
                 mime_type := r.mime_type, ai_analysis_status := "not_started",
                 ai_analysis_log := ["media_downloaded"] }],
            fs := fs1, fetches := st.fetches + 1, counter := st.counter + 1,
            media_ids := st.media_ids ++ ["media-" ++ toString st.counter],
            cached := st.cached + 1 } := by
  unfold process_media_item
  dsimp only
  rw [hfind, hput, hins]
  rfl

/-- A new URL whose fetch fails: the error is swallowed, the error
counter bumped, nothing else changes. -/
theorem process_fetch_fail (md5fn : Bytes → String) (fetch : String → FetchResult)
    (insertFails : String → Bool) (post_id : String) (st : RecState)
    (url mtype e : String)
    (hfind : find_post_media st.store post_id url = none)
    (hf : fetch url = .error e) :
    process_media_item md5fn fetch insertFails post_id st (url, mtype)
      = { st with fetches := st.fetches + 1, errors := st.errors + 1 } := by
  unfold process_media_item
  dsimp only
  rw [hfind, put_eq_error md5fn fetch st.fs url (some mtype) e hf]

/-- A new URL whose download succeeds but whose insert raises: the file
was cached and the id generated before the exception, so the filesystem
and counter advance, but no record or id is kept and errors is bumped. -/
theorem process_insert_fail (md5fn : Bytes → String) (fetch : String → FetchResult)
    (insertFails : String → Bool) (post_id : String) (st : RecState)
    (url mtype : String) (r : CacheResult) (fs1 : FS)
    (hfind : find_post_media st.store post_id url = none)
    (hins : insertFails url = true)
    (hput : download_and_cache_media md5fn fetch st.fs url (some mtype)
      = (.ok r, fs1, 1)) :
    process_media_item md5fn fetch insertFails post_id st (url, mtype)
      = { st with fs := fs1, fetches := st.fetches + 1,
                  counter := st.counter + 1, errors := st.errors + 1 } := by
  unfold process_media_item
  dsimp only
  rw [hfind, hput, hins]
  rfl

/-- Each processed item bumps exactly one of cached/errors, and the id
list grows exactly with cached. -/
theorem process_media_item_step (md5fn : Bytes → String)
    (fetch : String → FetchResult) (insertFails : String → Bool)
    (post_id : String) (st : RecState) (item : String × String) :
    (let s := process_media_item md5fn fetch insertFails post_id st item
     s.cached = st.cached + 1 ∧ s.errors = st.errors
       ∧ s.media_ids.length = st.media_ids.length + 1)
    ∨ (let s := process_media_item md5fn fetch insertFails post_id st item
       s.cached = st.cached ∧ s.errors = st.errors + 1
         ∧ s.media_ids = st.media_ids) := by
  unfold process_media_item
  cases hfind : find_post_media st.store post_id item.1 with
  | some r => left; simp [hfind]
  | none =>
    rcases hdl : download_and_cache_media md5fn fetch st.fs item.1
        (some item.2) with ⟨res, fs1, k⟩
    cases res with
    | error e => right; simp [hfind, hdl]
    | ok r =>
      cases hins : insertFails item.1 with
      | true => right; simp [hfind, hdl, hins]
      | false => left; simp [hfind, hdl, hins]

/-- Fold invariant: cached + errors grows by exactly the number of
items, and media_ids grows exactly with cached. -/
theorem fold_process_counts (md5fn : Bytes → String)
    (fetch : String → FetchResult) (insertFails : String → Bool)
    (post_id : String) :
    ∀ (items : List (String × String)) (st : RecState),
      (items.foldl (process_media_item md5fn fetch insertFails post_id) st).cached
          + (items.foldl (process_media_item md5fn fetch insertFails post_id) st).errors
        = st.cached + st.errors + items.length
      ∧ (items.foldl (process_media_item md5fn fetch insertFails post_id) st).media_ids.length
          + st.cached
        = st.media_ids.length
          + (items.foldl (process_media_item md5fn fetch insertFails post_id) st).cached := by
  intro items
  induction items with
  | nil => intro st; simp
  | cons item rest ih =>
    intro st
    obtain ⟨g1, g2⟩ := ih (process_media_item md5fn fetch insertFails post_id st item)
    simp only [List.foldl_cons, List.length_cons]
    rcases process_media_item_step md5fn fetch insertFails post_id st item with
      ⟨h1, h2, h3⟩ | ⟨h1, h2, h3⟩
    · constructor <;> omega
    · have h3l : (process_media_item md5fn fetch insertFails post_id
          st item).media_ids.length = st.media_ids.length := by rw [h3]
      constructor <;> omega

/- ### Claim C9 -/

/-- C9: reconcile count invariant.  The returned statistics always
satisfy media_count = media_cached + media_errors and the number of
returned media ids equals media_cached; when no media URLs are
extractable (in particular when the payload is absent) all four
statistics are zero and neither the network nor the metadata store nor
the filesystem is touched. -/
theorem c9_reconcile_count_invariant :
    ∀ (md5fn : Bytes → String) (fetch : String → FetchResult)
      (insertFails : String → Bool) (store : Store) (fs : FS) (post_id : String)
      (media : Option MediaPayload),
      (extract_and_store_media md5fn fetch insertFails store fs post_id
          media).stats.media_count
        = (extract_and_store_media md5fn fetch insertFails store fs post_id
            media).stats.media_cached
          + (extract_and_store_media md5fn fetch insertFails store fs post_id
              media).stats.media_errors
      ∧ (extract_and_store_media md5fn fetch insertFails store fs post_id
          media).stats.media_ids.length
        = (extract_and_store_media md5fn fetch insertFails store fs post_id
            media).stats.media_cached
      ∧ (extract_media_urls media = [] →
          extract_and_store_media md5fn fetch insertFails store fs post_id media
            = { stats := { media_ids := [], media_count := 0, media_cached := 0,
                           media_errors := 0 },
                store := store, fs := fs, fetches := 0 })
      ∧ (media = none → extract_media_urls media = []) := by
  intro md5fn fetch insertFails store fs post_id media
  have hfold := fold_process_counts md5fn fetch insertFails post_id
    (extract_media_urls media)
    { store := store, fs := fs, counter := 0, fetches := 0, media_ids := [],
      cached := 0, errors := 0 }
  dsimp only at hfold
  simp only [List.length_nil] at hfold
  refine ⟨?_, ?_, ?_, ?_⟩
  · simp only [extract_and_store_media]
    omega
  · simp only [extract_and_store_media]
    omega
  · intro hempty
    simp [extract_and_store_media, hempty]
  · intro hnone
    rw [hnone]
    rfl

/-- Witness for C9: the no-media conjuncts applied to a payload without
a media dictionary. -/
theorem c9_witness :
    extract_and_store_media md5_test fetch_test (fun _ => false) [] [] "p-1" none
      = { stats := { media_ids := [], media_count := 0, media_cached := 0,
                     media_errors := 0 },
          store := [], fs := [], fetches := 0 } :=
  (c9_reconcile_count_invariant md5_test fetch_test (fun _ => false) [] [] "p-1"
    none).2.2.1
    ((c9_reconcile_count_invariant md5_test fetch_test (fun _ => false) [] []
      "p-1" none).2.2.2 rfl)

/- ### Claim C6 -/

/-- C6: per-item isolation in reconcile.  A failing media item — fetch
error, or insert raising after a successful download — only bumps the
error counter (plus the side effects that had already happened: for an
insert failure the file is cached and the id consumed), and the loop
then continues with exactly the remaining URLs; no exception escapes, so
the failure never aborts the post's ingestion. -/
theorem c6_per_item_isolation :
    (∀ (md5fn : Bytes → String) (fetch : String → FetchResult)
       (insertFails : String → Bool) (post_id : String) (st : RecState)
       (url mtype e : String) (rest : List (String × String)),
       find_post_media st.store post_id url = none →
       fetch url = .error e →
       ((url, mtype) :: rest).foldl
           (process_media_item md5fn fetch insertFails post_id) st
         = rest.foldl (process_media_item md5fn fetch insertFails post_id)
             { st with fetches := st.fetches + 1, errors := st.errors + 1 })
    ∧ (∀ (md5fn : Bytes → String) (fetch : String → FetchResult)
       (insertFails : String → Bool) (post_id : String) (st : RecState)
       (url mtype : String) (data : Bytes) (mime : Option String)
       (rest : List (String × String)),
       find_post_media st.store post_id url = none →
       fetch url = .ok (data, mime) →
       insertFails url = true →
       ((url, mtype) :: rest).foldl
           (process_media_item md5fn fetch insertFails post_id) st
         = rest.foldl (process_media_item md5fn fetch insertFails post_id)
             { st with
                 fs := (download_and_cache_media md5fn fetch st.fs url
                          (some mtype)).2.1,
                 fetches := st.fetches + 1, counter := st.counter + 1,
                 errors := st.errors + 1 }) := by
  constructor
  · intro md5fn fetch insertFails post_id st url mtype e rest hfind hf
    rw [List.foldl_cons,
      process_fetch_fail md5fn fetch insertFails post_id st url mtype e hfind hf]
  · intro md5fn fetch insertFails post_id st url mtype data mime rest hfind hf hins
    obtain ⟨r, fs1, hput⟩ :=
      put_ok_of_fetch_ok md5fn fetch st.fs url (some mtype) data mime hf
    rw [List.foldl_cons,
      process_insert_fail md5fn fetch insertFails post_id st url mtype r fs1
        hfind hins hput, hput]

/-- Witness for C6: a failing fetch ("http://bad") ahead of a good URL
just bumps the error count and processing continues; an insert failure
after a successful download of a.jpg leaves the cached file on disk,
consumes the id, bumps the error count, and processing continues. -/
theorem c6_witness :
    ([("http://bad", "image"), ("http://x/a.jpg", "image")].foldl
        (process_media_item md5_test fetch_test (fun _ => false) "p-1")
        { store := [], fs := [], counter := 0, fetches := 0, media_ids := [],
          cached := 0, errors := 0 }
      = [("http://x/a.jpg", "image")].foldl
          (process_media_item md5_test fetch_test (fun _ => false) "p-1")
          { store := [], fs := [], counter := 0, fetches := 0 + 1,
            media_ids := [], cached := 0, errors := 0 + 1 })
    ∧ ([("http://x/a.jpg", "image"), ("http://x/b.png", "image")].foldl
        (process_media_item md5_test fetch_test (fun _ => true) "p-1")
        { store := [], fs := [], counter := 0, fetches := 0, media_ids := [],
          cached := 0, errors := 0 }
      = [("http://x/b.png", "image")].foldl
          (process_media_item md5_test fetch_test (fun _ => true) "p-1")
          { store := [],
            fs := (download_and_cache_media md5_test fetch_test [] "http://x/a.jpg"
                     (some "image")).2.1,
            counter := 0 + 1, fetches := 0 + 1, media_ids := [], cached := 0,
            errors := 0 + 1 }) :=
  ⟨c6_per_item_isolation.1 md5_test fetch_test (fun _ => false) "p-1"
      { store := [], fs := [], counter := 0, fetches := 0, media_ids := [],
        cached := 0, errors := 0 }
      "http://bad" "image" "404" [("http://x/a.jpg", "image")] rfl rfl,
   c6_per_item_isolation.2 md5_test fetch_test (fun _ => true) "p-1"
      { store := [], fs := [], counter := 0, fetches := 0, media_ids := [],
        cached := 0, errors := 0 }
      "http://x/a.jpg" "image" [1] (some "image/jpeg")
      [("http://x/b.png", "image")] rfl rfl rfl⟩

/-- Generated id for counter 0. -/
theorem media_id_zero : "media-" ++ toString (0 : Nat) = "media-0" := rfl

/-- Generated id for counter 1. -/
theorem media_id_one : "media-" ++ toString (1 : Nat) = "media-1" := rfl

/- ### Claim C4 -/

/-- C4: reconciliation dedup.  A gallery payload with two distinct image
URLs against an empty metadata store yields cachedCount=2, errorCount=0
and two new MediaRecords; re-running reconcile over the resulting store
yields cachedCount=2 again with zero network fetches and no new records,
each URL resolved via the existing (parentId, url) lookup. -/
theorem c4_reconciliation_dedup :
    ∀ (md5fn : Bytes → String) (fetch : String → FetchResult) (fs : FS)
      (post_id u1 u2 : String) (b1 b2 : Bytes) (m1 m2 : Option String),
      u1 ≠ "" → u2 ≠ "" → u1 ≠ u2 →
      fetch u1 = .ok (b1, m1) → fetch u2 = .ok (b2, m2) →
      ∃ rec1 rec2 : MediaRecord,
        (extract_and_store_media md5fn fetch (fun _ => false) [] fs post_id
            (images_payload u1 u2)).store = [rec1, rec2]
        ∧ rec1.post_id = post_id ∧ rec1.media_url = u1
        ∧ rec1.media_id = "media-0"
        ∧ rec2.post_id = post_id ∧ rec2.media_url = u2
        ∧ rec2.media_id = "media-1"
        ∧ (extract_and_store_media md5fn fetch (fun _ => false) [] fs post_id
            (images_payload u1 u2)).stats
          = { media_ids := ["media-0", "media-1"], media_count := 2,
              media_cached := 2, media_errors := 0 }
        ∧ (extract_and_store_media md5fn fetch (fun _ => false)
            (extract_and_store_media md5fn fetch (fun _ => false) [] fs post_id
              (images_payload u1 u2)).store
            (extract_and_store_media md5fn fetch (fun _ => false) [] fs post_id
              (images_payload u1 u2)).fs post_id (images_payload u1 u2)).stats
          = { media_ids := ["media-0", "media-1"], media_count := 2,
              media_cached := 2, media_errors := 0 }
        ∧ (extract_and_store_media md5fn fetch (fun _ => false)
            (extract_and_store_media md5fn fetch (fun _ => false) [] fs post_id
              (images_payload u1 u2)).store
            (extract_and_store_media md5fn fetch (fun _ => false) [] fs post_id
              (images_payload u1 u2)).fs post_id (images_payload u1 u2)).fetches
          = 0
        ∧ (extract_and_store_media md5fn fetch (fun _ => false)
            (extract_and_store_media md5fn fetch (fun _ => false) [] fs post_id
              (images_payload u1 u2)).store
            (extract_and_store_media md5fn fetch (fun _ => false) [] fs post_id
              (images_payload u1 u2)).fs post_id (images_payload u1 u2)).store
          = (extract_and_store_media md5fn fetch (fun _ => false) [] fs post_id
              (images_payload u1 u2)).store := by
  intro md5fn fetch fs post_id u1 u2 b1 b2 m1 m2 hu1 hu2 hu12 hf1 hf2
  have hbu1 : (u1 == "") = false := beq_eq_false_iff_ne.mpr hu1
  have hbu2 : (u2 == "") = false := beq_eq_false_iff_ne.mpr hu2
  have hne : (u1 == u2) = false := beq_eq_false_iff_ne.mpr hu12
  have hitems : extract_media_urls (images_payload u1 u2)
      = [(u1, "image"), (u2, "image")] := by
    simp [images_payload, extract_media_urls, truthy, hbu1, hbu2, hu1, hu2]
  obtain ⟨r1, fs1, hput1⟩ :=
    put_ok_of_fetch_ok md5fn fetch fs u1 (some "image") b1 m1 hf1
  have hst1 : process_media_item md5fn fetch (fun _ => false) post_id
      { store := [], fs := fs, counter := 0, fetches := 0, media_ids := [],
        cached := 0, errors := 0 } (u1, "image")
      = { store := [{ media_id := "media-0", post_id := post_id,
                      media_type := r1.media_type, media_url := u1,
                      local_file_path := r1.local_path, md5_sum := r1.md5_sum,
                      file_size := r1.file_size, mime_type := r1.mime_type,
                      ai_analysis_status := "not_started",
                      ai_analysis_log := ["media_downloaded"] }],
          fs := fs1, counter := 1, fetches := 1, media_ids := ["media-0"],
          cached := 1, errors := 0 } := by
    rw [process_new md5fn fetch (fun _ => false) post_id
      { store := [], fs := fs, counter := 0, fetches := 0, media_ids := [],
        cached := 0, errors := 0 } u1 "image" r1 fs1 rfl rfl hput1]
    simp [media_id_zero]
  obtain ⟨r2, fs2, hput2⟩ :=
    put_ok_of_fetch_ok md5fn fetch fs1 u2 (some "image") b2 m2 hf2
  have hfind2 : find_post_media
      [{ media_id := "media-0", post_id := post_id, media_type := r1.media_type,
         media_url := u1, local_file_path := r1.local_path,
         md5_sum := r1.md5_sum, file_size := r1.file_size,
         mime_type := r1.mime_type, ai_analysis_status := "not_started",
         ai_analysis_log := ["media_downloaded"] }] post_id u2 = none := by
    simp [find_post_media, List.find?, hne]
  have hst2 : process_media_item md5fn fetch (fun _ => false) post_id
      { store := [{ media_id := "media-0", post_id := post_id,
                    media_type := r1.media_type, media_url := u1,
                    local_file_path := r1.local_path, md5_sum := r1.md5_sum,
                    file_size := r1.file_size, mime_type := r1.mime_type,
                    ai_analysis_status := "not_started",
                    ai_analysis_log := ["media_downloaded"] }],
        fs := fs1, counter := 1, fetches := 1, media_ids := ["media-0"],
        cached := 1, errors := 0 } (u2, "image")
      = { store := [{ media_id := "media-0", post_id := post_id,
                      media_type := r1.media_type, media_url := u1,
                      local_file_path := r1.local_path, md5_sum := r1.md5_sum,
                      file_size := r1.file_size, mime_type := r1.mime_type,
                      ai_analysis_status := "not_started",
                      ai_analysis_log := ["media_downloaded"] },
                    { media_id := "media-1", post_id := post_id,
                      media_type := r2.media_type, media_url := u2,
                      local_file_path := r2.local_path, md5_sum := r2.md5_sum,
                      file_size := r2.file_size, mime_type := r2.mime_type,
                      ai_analysis_status := "not_started",
                      ai_analysis_log := ["media_downloaded"] }],
          fs := fs2, counter := 2, fetches := 2,
          media_ids := ["media-0", "media-1"], cached := 2, errors := 0 } := by
    rw [process_new md5fn fetch (fun _ => false) post_id
      { store := [{ media_id := "media-0", post_id := post_id,
                    media_type := r1.media_type, media_url := u1,
                    local_file_path := r1.local_path, md5_sum := r1.md5_sum,
                    file_size := r1.file_size, mime_type := r1.mime_type,
                    ai_analysis_status := "not_started",
                    ai_analysis_log := ["media_downloaded"] }],
        fs := fs1, counter := 1, fetches := 1, media_ids := ["media-0"],
        cached := 1, errors := 0 } u2 "image" r2 fs2 hfind2 rfl hput2]
    simp [media_id_one]
  have hrun1 : extract_and_store_media md5fn fetch (fun _ => false) [] fs
      post_id (images_payload u1 u2)
      = { stats := { media_ids := ["media-0", "media-1"], media_count := 2,
                     media_cached := 2, media_errors := 0 },
          store := [{ media_id := "media-0", post_id := post_id,
                      media_type := r1.media_type, media_url := u1,
                      local_file_path := r1.local_path, md5_sum := r1.md5_sum,
                      file_size := r1.file_size, mime_type := r1.mime_type,
                      ai_analysis_status := "not_started",
                      ai_analysis_log := ["media_downloaded"] },
                    { media_id := "media-1", post_id := post_id,
                      media_type := r2.media_type, media_url := u2,
                      local_file_path := r2.local_path, md5_sum := r2.md5_sum,
                      file_size := r2.file_size, mime_type := r2.mime_type,
                      ai_analysis_status := "not_started",
                      ai_analysis_log := ["media_downloaded"] }],
          fs := fs2, fetches := 2 } := by
    simp only [extract_and_store_media, hitems, List.foldl_cons,
      List.foldl_nil, hst1, hst2]
    rfl
  have hfindA : find_post_media
      [{ media_id := "media-0", post_id := post_id, media_type := r1.media_type,
         media_url := u1, local_file_path := r1.local_path,
         md5_sum := r1.md5_sum, file_size := r1.file_size,
         mime_type := r1.mime_type, ai_analysis_status := "not_started",
         ai_analysis_log := ["media_downloaded"] },
       { media_id := "media-1", post_id := post_id, media_type := r2.media_type,
         media_url := u2, local_file_path := r2.local_path,
         md5_sum := r2.md5_sum, file_size := r2.file_size,
         mime_type := r2.mime_type, ai_analysis_status := "not_started",
         ai_analysis_log := ["media_downloaded"] }] post_id u1
      = some { media_id := "media-0", post_id := post_id,
               media_type := r1.media_type, media_url := u1,
               local_file_path := r1.local_path, md5_sum := r1.md5_sum,
               file_size := r1.file_size, mime_type := r1.mime_type,
               ai_analysis_status := "not_started",
               ai_analysis_log := ["media_downloaded"] } := by
    simp [find_post_media, List.find?]
  have hfindB : find_post_media
      [{ media_id := "media-0", post_id := post_id, media_type := r1.media_type,
         media_url := u1, local_file_path := r1.local_path,
         md5_sum := r1.md5_sum, file_size := r1.file_size,
         mime_type := r1.mime_type, ai_analysis_status := "not_started",
         ai_analysis_log := ["media_downloaded"] },
       { media_id := "media-1", post_id := post_id, media_type := r2.media_type,
         media_url := u2, local_file_path := r2.local_path,
         md5_sum := r2.md5_sum, file_size := r2.file_size,
         mime_type := r2.mime_type, ai_analysis_status := "not_started",
         ai_analysis_log := ["media_downloaded"] }] post_id u2
      = some { media_id := "media-1", post_id := post_id,
               media_type := r2.media_type, media_url := u2,
               local_file_path := r2.local_path, md5_sum := r2.md5_sum,
               file_size := r2.file_size, mime_type := r2.mime_type,
               ai_analysis_status := "not_started",
               ai_analysis_log := ["media_downloaded"] } := by
    simp [find_post_media, List.find?, hne]
  have hrun2 : extract_and_store_media md5fn fetch (fun _ => false)
      [{ media_id := "media-0", post_id := post_id, media_type := r1.media_type,
         media_url := u1, local_file_path := r1.local_path,
         md5_sum := r1.md5_sum, file_size := r1.file_size,
         mime_type := r1.mime_type, ai_analysis_status := "not_started",
         ai_analysis_log := ["media_downloaded"] },
       { media_id := "media-1", post_id := post_id, media_type := r2.media_type,
         media_url := u2, local_file_path := r2.local_path,
         md5_sum := r2.md5_sum, file_size := r2.file_size,
         mime_type := r2.mime_type, ai_analysis_status := "not_started",
         ai_analysis_log := ["media_downloaded"] }] fs2 post_id
      (images_payload u1 u2)
      = { stats := { media_ids := ["media-0", "media-1"], media_count := 2,
                     media_cached := 2, media_errors := 0 },
          store := [{ media_id := "media-0", post_id := post_id,
                      media_type := r1.media_type, media_url := u1,
                      local_file_path := r1.local_path, md5_sum := r1.md5_sum,
                      file_size := r1.file_size, mime_type := r1.mime_type,
                      ai_analysis_status := "not_started",
                      ai_analysis_log := ["media_downloaded"] },
                    { media_id := "media-1", post_id := post_id,
                      media_type := r2.media_type, media_url := u2,
                      local_file_path := r2.local_path, md5_sum := r2.md5_sum,
                      file_size := r2.file_size, mime_type := r2.mime_type,
                      ai_analysis_status := "not_started",
                      ai_analysis_log := ["media_downloaded"] }],
          fs := fs2, fetches := 0 } := by
    simp only [extract_and_store_media, hitems, List.foldl_cons,
      List.foldl_nil]
    rw [process_found md5fn fetch (fun _ => false) post_id _ u1 "image" _ hfindA]
    rw [process_found md5fn fetch (fun _ => false) post_id _ u2 "image" _ hfindB]
    simp
  refine ⟨{ media_id := "media-0", post_id := post_id,
              media_type := r1.media_type, media_url := u1,
              local_file_path := r1.local_path, md5_sum := r1.md5_sum,
              file_size := r1.file_size, mime_type := r1.mime_type,
              ai_analysis_status := "not_started",
              ai_analysis_log := ["media_downloaded"] },
            { media_id := "media-1", post_id := post_id,
              media_type := r2.media_type, media_url := u2,
              local_file_path := r2.local_path, md5_sum := r2.md5_sum,
              file_size := r2.file_size, mime_type := r2.mime_type,
              ai_analysis_status := "not_started",
              ai_analysis_log := ["media_downloaded"] }, ?_⟩
  rw [hrun1]
  rw [hrun2]
  simp

/-- Witness for C4: the spec's concrete vector — post "p-1" with gallery
URLs a.jpg and b.png against the empty store. -/
theorem c4_witness :
    ∃ rec1 rec2 : MediaRecord,
      (extract_and_store_media md5_test fetch_test (fun _ => false) [] [] "p-1"
          (images_payload "http://x/a.jpg" "http://x/b.png")).store = [rec1, rec2]
      ∧ rec1.post_id = "p-1" ∧ rec1.media_url = "http://x/a.jpg"
      ∧ rec1.media_id = "media-0"
      ∧ rec2.post_id = "p-1" ∧ rec2.media_url = "http://x/b.png"
      ∧ rec2.media_id = "media-1"
      ∧ (extract_and_store_media md5_test fetch_test (fun _ => false) [] [] "p-1"
          (images_payload "http://x/a.jpg" "http://x/b.png")).stats
        = { media_ids := ["media-0", "media-1"], media_count := 2,
            media_cached := 2, media_errors := 0 }
      ∧ (extract_and_store_media md5_test fetch_test (fun _ => false)
          (extract_and_store_media md5_test fetch_test (fun _ => false) [] [] "p-1"
            (images_payload "http://x/a.jpg" "http://x/b.png")).store
          (extract_and_store_media md5_test fetch_test (fun _ => false) [] [] "p-1"
            (images_payload "http://x/a.jpg" "http://x/b.png")).fs "p-1"
          (images_payload "http://x/a.jpg" "http://x/b.png")).stats
        = { media_ids := ["media-0", "media-1"], media_count := 2,
            media_cached := 2, media_errors := 0 }
      ∧ (extract_and_store_media md5_test fetch_test (fun _ => false)
          (extract_and_store_media md5_test fetch_test (fun _ => false) [] [] "p-1"
            (images_payload "http://x/a.jpg" "http://x/b.png")).store
          (extract_and_store_media md5_test fetch_test (fun _ => false) [] [] "p-1"
            (images_payload "http://x/a.jpg" "http://x/b.png")).fs "p-1"
          (images_payload "http://x/a.jpg" "http://x/b.png")).fetches = 0
      ∧ (extract_and_store_media md5_test fetch_test (fun _ => false)
          (extract_and_store_media md5_test fetch_test (fun _ => false) [] [] "p-1"
            (images_payload "http://x/a.jpg" "http://x/b.png")).store
          (extract_and_store_media md5_test fetch_test (fun _ => false) [] [] "p-1"
            (images_payload "http://x/a.jpg" "http://x/b.png")).fs "p-1"
          (images_payload "http://x/a.jpg" "http://x/b.png")).store
        = (extract_and_store_media md5_test fetch_test (fun _ => false) [] [] "p-1"
            (images_payload "http://x/a.jpg" "http://x/b.png")).store :=
  c4_reconciliation_dedup md5_test fetch_test [] "p-1" "http://x/a.jpg"
    "http://x/b.png" [1] [1] (some "image/jpeg") none
    (by decide) (by decide) (by decide) rfl rfl
